import Mathlib

/-!
Verification of the Checkout Field Validator component
(`src/components/blocks/CheckoutForm/index.tsx`).

The component wires a Joi validation schema and input formatters from the
`creditcardutils` library to React state.  The schema and the submit handler
are embedded directly from the source; the credit-card utility functions and
the validator hook's aggregate flag live outside the repository, so they are
modelled from the specification (each such definition says so in its doc
comment).
-/

set_option autoImplicit false

namespace Checkout

/-- The digit characters of a string, in order (all other characters dropped). -/
def digitsOf (s : String) : List Char :=
  s.toList.filter Char.isDigit

/-- Numeric value of a digit character. -/
def digitVal (c : Char) : Nat := c.toNat - 48

/-- The natural number denoted by a list of digit characters (most significant first). -/
def natOfDigits (l : List Char) : Nat :=
  l.foldl (fun acc c => 10 * acc + digitVal c) 0

/-- Luhn doubling step: double the digit and subtract 9 when the result exceeds 9. -/
def luhnDouble (d : Nat) : Nat :=
  if 2 * d > 9 then 2 * d - 9 else 2 * d

/-- Luhn weighted sum over the digit values listed least-significant first:
every second digit (counting from the rightmost, which comes first here) is doubled. -/
def luhnSum : List Nat → Nat
  | [] => 0
  | [d] => d
  | d1 :: d2 :: rest => d1 + luhnDouble d2 + luhnSum rest

/-- Modelled from the spec: `validateCardNumber` of the external `creditcardutils`
library ("must pass the Luhn checksum", §4.3).  Spaces and dashes are ignored;
the remaining characters must be at least one digit and the Luhn weighted sum
must be divisible by 10. -/
def validateCardNumber (s : String) : Bool :=
  let cs := s.toList.filter (fun c => c ≠ ' ' && c ≠ '-')
  !cs.isEmpty && cs.all Char.isDigit &&
    luhnSum ((cs.map digitVal).reverse) % 10 == 0

/-- Card brands distinguished by the component (spec §3, `CardBrand`). -/
inductive CardBrand where
  | visa
  | mastercard
  | unknown
deriving DecidableEq, Repr

/-- Brand of a digit sequence: Visa for leading digit 4, Mastercard for leading
two digits in 51–55 or leading four digits in 2221–2720, Unknown otherwise. -/
def brandOfDigits : List Char → CardBrand
  | [] => .unknown
  | c :: cs =>
    if c = '4' then .visa
    else if 2 ≤ (c :: cs).length ∧ 51 ≤ natOfDigits ((c :: cs).take 2)
        ∧ natOfDigits ((c :: cs).take 2) ≤ 55 then .mastercard
    else if 4 ≤ (c :: cs).length ∧ 2221 ≤ natOfDigits ((c :: cs).take 4)
        ∧ natOfDigits ((c :: cs).take 4) ≤ 2720 then .mastercard
    else .unknown

/-- Modelled from the spec: `parseCardType` of the external `creditcardutils`
library (spec §4.2): Visa for leading digit 4, Mastercard for leading two digits
in 51–55 or leading four digits in 2221–2720, Unknown for anything else,
including null/empty input. -/
def parseCardType : Option String → CardBrand
  | none => .unknown
  | some s => brandOfDigits (digitsOf s)

/-- Insert a space before every digit whose 0-based position is a positive
multiple of 4; `i` is the position of the head of the list. -/
def insertSpaces : Nat → List Char → List Char
  | _, [] => []
  | i, c :: cs =>
    (if i != 0 && i % 4 == 0 then [' ', c] else [c]) ++ insertSpaces (i + 1) cs

/-- Modelled from the spec: `formatCardNumber` of the external `creditcardutils`
library (spec §4.1): strips non-digit characters, re-inserts a delimiter every
4 digits, caps the total digit count at the brand maximum of 16. -/
def formatCardNumber (s : String) : String :=
  String.mk (insertSpaces 0 ((digitsOf s).take 16))

/-- Modelled from the spec: `validateCardCVC` of the external `creditcardutils`
library ("numeric CVC well-formedness check", spec §4.3): all characters are
digits and the length is between 3 and 4. -/
def validateCardCVC (s : String) : Bool :=
  !s.isEmpty && s.toList.all Char.isDigit && 3 ≤ s.length && s.length ≤ 4

/-- Split a character list at every occurrence of `sep` (occurrences are
dropped; adjacent separators yield empty segments, as `String.split` does). -/
def splitOnChar (sep : Char) : List Char → List (List Char)
  | [] => [[]]
  | c :: cs =>
    let r := splitOnChar sep cs
    if c = sep then [] :: r
    else
      match r with
      | [] => [[c]]
      | h :: t => (c :: h) :: t

/-- Drop space characters from both ends of a character list. -/
def trimChars (l : List Char) : List Char :=
  ((l.dropWhile (· = ' ')).reverse.dropWhile (· = ' ')).reverse

/-- Read a non-empty all-digit character list as a decimal number. -/
def charsToNat (l : List Char) : Option Nat :=
  if !l.isEmpty && l.all Char.isDigit then some (natOfDigits l) else none

/-- Modelled from the spec: Joi's email grammar with TLD validation disabled
(spec §4.3 "must match a standard email grammar"): one `@` separating a
non-empty local part from a domain of at least two non-empty dot-separated
labels. -/
def emailValid (s : String) : Bool :=
  match splitOnChar '@' s.toList with
  | [lp, domain] =>
    !lp.isEmpty &&
      (let labels := splitOnChar '.' domain
       2 ≤ labels.length && labels.all (fun p => !p.isEmpty))
  | _ => false

/-- Modelled from the spec: `parseCardExpiry` of the external `creditcardutils`
library: split on `/`, trim, read month and year as decimal numbers, and lift a
two-digit year to the 2000s.  Unreadable parts become 0 (which never validates). -/
def parseCardExpiry (s : String) : Nat × Nat :=
  match splitOnChar '/' s.toList with
  | [m, y] =>
    let month := (charsToNat (trimChars m)).getD 0
    let yr := (charsToNat (trimChars y)).getD 0
    (month, if yr < 100 then 2000 + yr else yr)
  | _ => (0, 0)

/-- Modelled from the spec: `validateCardExpiry` of the external
`creditcardutils` library (spec §4.3): the month is in 1–12 and (year, month)
is not earlier than the current (year, month) pair `now`. -/
def validateCardExpiry (now : Nat × Nat) (month year : Nat) : Bool :=
  1 ≤ month && month ≤ 12 &&
    (now.1 < year || (now.1 == year && now.2 ≤ month))

/-- The form model (`TypeCheckoutFormDefaultValues` in the source): four
string-or-null fields. -/
structure FormValues where
  email : Option String
  card_number : Option String
  card_expire : Option String
  cvv : Option String
deriving DecidableEq, Repr

/-- Per-field error message lists (spec §3, `ValidationResult`). -/
structure ValidationResult where
  email : List String
  card_number : List String
  card_expire : List String
  cvv : List String
deriving DecidableEq, Repr

/-- The `email` field of the Joi schema (source lines 77–86): required
(`Required` on null or empty), then the email grammar (`Must be a valid
email`).  Rules short-circuit on the first failure (spec §4.3). -/
def validate_email : Option String → List String
  | none => ["Required"]
  | some s =>
    if s = "" then ["Required"]
    else if !emailValid s then ["Must be a valid email"]
    else []

/-- The `card_number` field of the Joi schema (source lines 87–113): required,
then the `validateCardNumber` custom rule (`Must be a valid card`), then the
`parseCardType` custom rule (`Must be Visa / Master card type`). -/
def validate_card_number : Option String → List String
  | none => ["Required"]
  | some s =>
    if s = "" then ["Required"]
    else if !validateCardNumber s then ["Must be a valid card"]
    else if !(parseCardType (some s) == .visa
        || parseCardType (some s) == .mastercard) then
      ["Must be Visa / Master card type"]
    else []

/-- The `card_expire` field of the Joi schema (source lines 114–129): required,
then parse and check the expiry against the current month (`Must be valid
expiration date`). -/
def validate_card_expire (now : Nat × Nat) : Option String → List String
  | none => ["Required"]
  | some s =>
    if s = "" then ["Required"]
    else
      let my := parseCardExpiry s
      if !validateCardExpiry now my.1 my.2 then ["Must be valid expiration date"]
      else []

/-- The `cvv` field of the Joi schema (source lines 130–146): required, then
length exactly 3 (`Maximum 3 digits`), then the `validateCardCVC` custom rule
(`Must be valid CVV`). -/
def validate_cvv : Option String → List String
  | none => ["Required"]
  | some s =>
    if s = "" then ["Required"]
    else if s.length ≠ 3 then ["Maximum 3 digits"]
    else if !validateCardCVC s then ["Must be valid CVV"]
    else []

/-- Full-schema validation: re-evaluates every field of the model (spec §4.3:
validation re-runs synchronously and fully on every model mutation).  `now` is
the current (year, month) pair used by the expiry rule. -/
def validateForm (now : Nat × Nat) (d : FormValues) : ValidationResult :=
  { email := validate_email d.email
    card_number := validate_card_number d.card_number
    card_expire := validate_card_expire now d.card_expire
    cvv := validate_cvv d.cvv }

/-- Modelled from the spec: the validator hook's aggregate `$auto_invalid`
flag (spec §4.3): true iff any field's error list is non-empty. -/
def anyInvalid (now : Nat × Nat) (d : FormValues) : Bool :=
  let r := validateForm now d
  !r.email.isEmpty || !r.card_number.isEmpty
    || !r.card_expire.isEmpty || !r.cvv.isEmpty

/-- The submit button's `disabled` attribute (source line 279):
`state.$auto_invalid || loading`. -/
def submitDisabled (now : Nat × Nat) (d : FormValues) (loading : Bool) : Bool :=
  anyInvalid now d || loading

/-- Observable effects of one run of the submit handler. -/
structure SubmitResult where
  preventedDefault : Bool
  onSuccessCalls : List FormValues
deriving DecidableEq, Repr

/-- The submit handler (source lines 159–163): calls `e.preventDefault()` and
then `onSuccess(state.$data)` — nothing else, no validation check. -/
def onSubmit (snapshot : FormValues) : SubmitResult :=
  { preventedDefault := true, onSuccessCalls := [snapshot] }

example : validate_card_number (some "4111111111111111") = [] := by decide
example : validate_card_number (some "4111 1111 1111 1111") = [] := by decide
example : validate_card_number (some "1234") = ["Must be a valid card"] := by decide
example : validate_card_number (some "378282246310005")
    = ["Must be Visa / Master card type"] := by decide
example : validate_card_number (some "5500000000000004") = [] := by decide
example : validate_cvv (some "") = ["Required"] := by decide
example : validate_cvv (some "12") = ["Maximum 3 digits"] := by decide
example : validate_cvv (some "012") = [] := by decide
example : validate_cvv (some "1234") = ["Maximum 3 digits"] := by decide
example : parseCardType (some "4111111111111111") = .visa := by decide
example : parseCardType (some "5500000000000004") = .mastercard := by decide
example : parseCardType (some "2221000000000009") = .mastercard := by decide
example : parseCardType (some "") = .unknown := by decide
example : formatCardNumber "4111111111111111" = "4111 1111 1111 1111" := by decide
example : formatCardNumber "41111" = "4111 1" := by decide
example : emailValid "a@b.com" = true := by decide
example : validate_card_expire (2026, 10) (some "12 / 29") = [] := by decide
example : validate_card_expire (2026, 10) (some "12 / 20")
    = ["Must be valid expiration date"] := by decide

/-! ### Helper lemmas -/

theorem digitsOf_all (s : String) : (digitsOf s).all Char.isDigit = true := by
  simp only [digitsOf, List.all_eq_true]
  intro c hc
  exact (List.mem_filter.mp hc).2

theorem all_take {l : List Char} (n : Nat) (h : l.all Char.isDigit = true) :
    (l.take n).all Char.isDigit = true := by
  simp only [List.all_eq_true] at h ⊢
  intro c hc
  exact h c (List.mem_of_mem_take hc)

theorem insertSpaces_filter : ∀ (l : List Char) (i : Nat),
    l.all Char.isDigit = true →
    (insertSpaces i l).filter Char.isDigit = l
  | [], _, _ => rfl
  | c :: cs, i, h => by
    rw [List.all_cons, Bool.and_eq_true] at h
    obtain ⟨hc, hcs⟩ := h
    have ih := insertSpaces_filter cs (i + 1) hcs
    have hspace : Char.isDigit ' ' = false := rfl
    unfold insertSpaces
    cases hi : (i != 0 && i % 4 == 0) <;>
      simp [hi, List.filter_append, List.filter_cons, hc, hspace, ih]

theorem insertSpaces_chars : ∀ (l : List Char) (i : Nat),
    l.all Char.isDigit = true →
    (insertSpaces i l).all (fun c => c.isDigit || c == ' ') = true
  | [], _, _ => rfl
  | c :: cs, i, h => by
    rw [List.all_cons, Bool.and_eq_true] at h
    obtain ⟨hc, hcs⟩ := h
    have ih := insertSpaces_chars cs (i + 1) hcs
    unfold insertSpaces
    cases hi : (i != 0 && i % 4 == 0) <;>
      simp [hi, List.all_append, List.all_cons, hc, ih]

theorem formatCardNumber_toList (s : String) :
    (formatCardNumber s).toList = insertSpaces 0 ((digitsOf s).take 16) := rfl

theorem digitsOf_formatCardNumber (s : String) :
    digitsOf (formatCardNumber s) = (digitsOf s).take 16 :=
  insertSpaces_filter _ 0 (all_take 16 (digitsOf_all s))

/-! ### Claim theorems -/

/-- C7: `formatCardNumber` strips all non-digit characters, re-inserts a space
delimiter after every group of 4 digits, and caps the total digit count at 16:
the digits of the output are exactly the first 16 digits of the input, every
output character is a digit or a space, and
`formatCardNumber "4111111111111111" = "4111 1111 1111 1111"`. -/
theorem formatCardNumber_strips_groups_caps :
    (∀ s : String, (formatCardNumber s).toList.filter Char.isDigit
        = (s.toList.filter Char.isDigit).take 16) ∧
    (∀ s : String,
      (formatCardNumber s).toList.all (fun c => c.isDigit || c == ' ') = true) ∧
    formatCardNumber "4111111111111111" = "4111 1111 1111 1111" := by
  refine ⟨?_, ?_, by decide⟩
  · intro s
    exact digitsOf_formatCardNumber s
  · intro s
    rw [formatCardNumber_toList]
    exact insertSpaces_chars _ 0 (all_take 16 (digitsOf_all s))

/-- C8: `formatCardNumber` is idempotent: for every input string `x`,
`formatCardNumber (formatCardNumber x) = formatCardNumber x`. -/
theorem formatCardNumber_idempotent :
    ∀ x : String, formatCardNumber (formatCardNumber x) = formatCardNumber x := by
  intro x
  show String.mk (insertSpaces 0 ((digitsOf (formatCardNumber x)).take 16))
      = formatCardNumber x
  rw [digitsOf_formatCardNumber, List.take_take]
  rfl

theorem brandOfDigits_cons (c : Char) (cs : List Char) :
    brandOfDigits (c :: cs) =
      if c = '4' then CardBrand.visa
      else if 2 ≤ (c :: cs).length ∧ 51 ≤ natOfDigits ((c :: cs).take 2)
          ∧ natOfDigits ((c :: cs).take 2) ≤ 55 then CardBrand.mastercard
      else if 4 ≤ (c :: cs).length ∧ 2221 ≤ natOfDigits ((c :: cs).take 4)
          ∧ natOfDigits ((c :: cs).take 4) ≤ 2720 then CardBrand.mastercard
      else CardBrand.unknown := rfl

theorem brandOfDigits_visa_iff : ∀ ds : List Char,
    brandOfDigits ds = CardBrand.visa ↔ ds.head? = some '4'
  | [] => by decide
  | c :: cs => by
    rw [brandOfDigits_cons]
    by_cases hc : c = '4'
    · subst hc
      rw [if_pos rfl]
      simp
    · rw [if_neg hc]
      constructor
      · intro h
        split_ifs at h
      · intro h
        exact absurd (Option.some.inj h) hc

theorem brandOfDigits_mastercard_iff : ∀ ds : List Char,
    brandOfDigits ds = CardBrand.mastercard ↔
      (ds.head? ≠ some '4' ∧ ds ≠ [] ∧
        ((2 ≤ ds.length ∧ 51 ≤ natOfDigits (ds.take 2)
            ∧ natOfDigits (ds.take 2) ≤ 55) ∨
         (4 ≤ ds.length ∧ 2221 ≤ natOfDigits (ds.take 4)
            ∧ natOfDigits (ds.take 4) ≤ 2720)))
  | [] => by decide
  | c :: cs => by
    rw [brandOfDigits_cons]
    by_cases hc : c = '4'
    · subst hc
      rw [if_pos rfl]
      simp
    · rw [if_neg hc]
      have hh : (c :: cs).head? ≠ some '4' :=
        fun h => hc (Option.some.inj h)
      by_cases h2 : 2 ≤ (c :: cs).length ∧ 51 ≤ natOfDigits ((c :: cs).take 2)
          ∧ natOfDigits ((c :: cs).take 2) ≤ 55
      · rw [if_pos h2]
        exact ⟨fun _ => ⟨hh, List.cons_ne_nil c cs, Or.inl h2⟩, fun _ => rfl⟩
      · rw [if_neg h2]
        by_cases h4 : 4 ≤ (c :: cs).length ∧ 2221 ≤ natOfDigits ((c :: cs).take 4)
            ∧ natOfDigits ((c :: cs).take 4) ≤ 2720
        · rw [if_pos h4]
          exact ⟨fun _ => ⟨hh, List.cons_ne_nil c cs, Or.inr h4⟩, fun _ => rfl⟩
        · rw [if_neg h4]
          constructor
          · intro h
            exact absurd h (by decide)
          · rintro ⟨-, -, h | h⟩
            · exact absurd h h2
            · exact absurd h h4

theorem brandOfDigits_unknown_iff : ∀ ds : List Char,
    brandOfDigits ds = CardBrand.unknown ↔
      (ds.head? ≠ some '4' ∧
        ¬ (ds.head? ≠ some '4' ∧ ds ≠ [] ∧
          ((2 ≤ ds.length ∧ 51 ≤ natOfDigits (ds.take 2)
              ∧ natOfDigits (ds.take 2) ≤ 55) ∨
           (4 ≤ ds.length ∧ 2221 ≤ natOfDigits (ds.take 4)
              ∧ natOfDigits (ds.take 4) ≤ 2720))))
  | [] => by decide
  | c :: cs => by
    rw [brandOfDigits_cons]
    by_cases hc : c = '4'
    · subst hc
      rw [if_pos rfl]
      constructor
      · intro h
        exact absurd h (by decide)
      · rintro ⟨hA, -⟩
        exact absurd rfl hA
    · rw [if_neg hc]
      have hh : (c :: cs).head? ≠ some '4' :=
        fun h => hc (Option.some.inj h)
      by_cases h2 : 2 ≤ (c :: cs).length ∧ 51 ≤ natOfDigits ((c :: cs).take 2)
          ∧ natOfDigits ((c :: cs).take 2) ≤ 55
      · rw [if_pos h2]
        constructor
        · intro h
          exact absurd h (by decide)
        · rintro ⟨-, hB⟩
          exact absurd ⟨hh, List.cons_ne_nil c cs, Or.inl h2⟩ hB
      · rw [if_neg h2]
        by_cases h4 : 4 ≤ (c :: cs).length ∧ 2221 ≤ natOfDigits ((c :: cs).take 4)
            ∧ natOfDigits ((c :: cs).take 4) ≤ 2720
        · rw [if_pos h4]
          constructor
          · intro h
            exact absurd h (by decide)
          · rintro ⟨-, hB⟩
            exact absurd ⟨hh, List.cons_ne_nil c cs, Or.inr h4⟩ hB
        · rw [if_neg h4]
          refine ⟨fun _ => ⟨hh, ?_⟩, fun _ => rfl⟩
          rintro ⟨-, -, h | h⟩
          · exact absurd h h2
          · exact absurd h h4

/-- C9: `parseCardType` returns Visa for card numbers with leading digit 4,
Mastercard for numbers whose leading two digits fall in 51–55 or whose leading
four digits fall in 2221–2720, and Unknown for every other input, including the
empty string and null; in particular it maps `"4111111111111111"` to Visa,
`"5500000000000004"` to Mastercard and `""` to Unknown. -/
theorem parseCardType_brand_rules :
    parseCardType (some "4111111111111111") = CardBrand.visa ∧
    parseCardType (some "5500000000000004") = CardBrand.mastercard ∧
    parseCardType (some "") = CardBrand.unknown ∧
    parseCardType none = CardBrand.unknown ∧
    (∀ t : String,
      (parseCardType (some t) = CardBrand.visa ↔
        (digitsOf t).head? = some '4') ∧
      (parseCardType (some t) = CardBrand.mastercard ↔
        ((digitsOf t).head? ≠ some '4' ∧ digitsOf t ≠ [] ∧
          ((2 ≤ (digitsOf t).length ∧ 51 ≤ natOfDigits ((digitsOf t).take 2)
              ∧ natOfDigits ((digitsOf t).take 2) ≤ 55) ∨
           (4 ≤ (digitsOf t).length ∧ 2221 ≤ natOfDigits ((digitsOf t).take 4)
              ∧ natOfDigits ((digitsOf t).take 4) ≤ 2720)))) ∧
      (parseCardType (some t) = CardBrand.unknown ↔
        ((digitsOf t).head? ≠ some '4' ∧
          ¬ ((digitsOf t).head? ≠ some '4' ∧ digitsOf t ≠ [] ∧
            ((2 ≤ (digitsOf t).length ∧ 51 ≤ natOfDigits ((digitsOf t).take 2)
                ∧ natOfDigits ((digitsOf t).take 2) ≤ 55) ∨
             (4 ≤ (digitsOf t).length ∧ 2221 ≤ natOfDigits ((digitsOf t).take 4)
                ∧ natOfDigits ((digitsOf t).take 4) ≤ 2720)))))) := by
  refine ⟨by decide, by decide, by decide, rfl, ?_⟩
  intro t
  exact ⟨brandOfDigits_visa_iff (digitsOf t),
    brandOfDigits_mastercard_iff (digitsOf t),
    brandOfDigits_unknown_iff (digitsOf t)⟩

/-- C1: for every card number string `n` that passes the Luhn checksum and
whose prefix identifies it as Visa or Mastercard, validating FormValues with
`card_number = n` produces an empty error list for the `card_number` field. -/
theorem card_number_valid_empty_errors (now : Nat × Nat) (d : FormValues)
    (n : String) (hd : d.card_number = some n)
    (hluhn : validateCardNumber n = true)
    (hbrand : parseCardType (some n) = CardBrand.visa
      ∨ parseCardType (some n) = CardBrand.mastercard) :
    (validateForm now d).card_number = [] := by
  have hne : n ≠ "" := by
    intro h
    subst h
    exact absurd hluhn (by decide)
  have : validate_card_number (some n) = [] := by
    rcases hbrand with h | h <;> simp [validate_card_number, hne, hluhn, h]
  simp [validateForm, hd, this]

/-- Witness for C1 at the Luhn-valid Visa number `4111111111111111`. -/
theorem card_number_valid_empty_errors_witness :
    validateCardNumber "4111111111111111" = true ∧
    parseCardType (some "4111111111111111") = CardBrand.visa ∧
    (validateForm (2026, 10)
      ⟨none, some "4111111111111111", none, none⟩).card_number = [] :=
  ⟨by decide, by decide,
    card_number_valid_empty_errors (2026, 10)
      ⟨none, some "4111111111111111", none, none⟩ "4111111111111111" rfl
      (by decide) (Or.inl (by decide))⟩

/-- C2: the submit handler prevents the default browser submit action and calls
`onSuccess` exactly once with the FormValues snapshot current at that instant,
performing no additional validation checks (the equation holds for every
snapshot, valid or not); when the snapshot passes validation (the aggregate
invalid flag is false, which is the only situation in which the UI lets a
submission happen), all four fields are non-null. -/
theorem onSubmit_contract (d : FormValues) :
    onSubmit d = { preventedDefault := true, onSuccessCalls := [d] } ∧
    (∀ now : Nat × Nat, anyInvalid now d = false →
      d.email ≠ none ∧ d.card_number ≠ none
        ∧ d.card_expire ≠ none ∧ d.cvv ≠ none) := by
  refine ⟨rfl, ?_⟩
  intro now h
  refine ⟨?_, ?_, ?_, ?_⟩ <;>
    · intro hnone
      simp [anyInvalid, validateForm, hnone, validate_email,
        validate_card_number, validate_card_expire, validate_cvv] at h

/-- Witness for C2 at a fully valid snapshot. -/
theorem onSubmit_contract_witness :
    anyInvalid (2026, 10)
      ⟨some "a@b.com", some "4111111111111111", some "12 / 29", some "123"⟩
      = false ∧
    onSubmit ⟨some "a@b.com", some "4111111111111111", some "12 / 29", some "123"⟩
      = { preventedDefault := true,
          onSuccessCalls :=
            [⟨some "a@b.com", some "4111111111111111", some "12 / 29", some "123"⟩] } ∧
    (⟨some "a@b.com", some "4111111111111111", some "12 / 29", some "123"⟩
        : FormValues).email ≠ none :=
  ⟨by decide,
    (onSubmit_contract
      ⟨some "a@b.com", some "4111111111111111", some "12 / 29", some "123"⟩).1,
    ((onSubmit_contract
      ⟨some "a@b.com", some "4111111111111111", some "12 / 29", some "123"⟩).2
        (2026, 10) (by decide)).1⟩

/-- C3: the submit button is disabled exactly when the aggregate any-invalid
flag is true or the externally supplied loading prop is true, and the
any-invalid flag is true iff at least one field's error list is non-empty. -/
theorem submit_disabled_iff (now : Nat × Nat) (d : FormValues) (loading : Bool) :
    (submitDisabled now d loading = true ↔
      (anyInvalid now d = true ∨ loading = true)) ∧
    (anyInvalid now d = true ↔
      ((validateForm now d).email ≠ [] ∨ (validateForm now d).card_number ≠ []
        ∨ (validateForm now d).card_expire ≠ [] ∨ (validateForm now d).cvv ≠ [])) := by
  constructor
  · simp [submitDisabled]
  · simp [anyInvalid, or_assoc]

/-- C4 counterexample: the empty string is a non-null cvv value whose length is
not 3, yet its error list is `["Required"]` and does not contain
`Maximum 3 digits` (Joi's empty-string check fires first). -/
theorem cvv_short_counterexample :
    (some "" : Option String) ≠ none ∧ "".length ≠ 3 ∧
    validate_cvv (some "") = ["Required"] ∧
    ¬ "Maximum 3 digits" ∈ validate_cvv (some "") := by decide

/-- C4 (amended): for every non-null, non-empty cvv string whose length is not
exactly 3, validation produces an error list for the cvv field containing
`Maximum 3 digits` and sets the aggregate any-invalid flag to true, so the
submit button stays disabled and the submit callback never fires. -/
theorem cvv_wrong_length_errors (now : Nat × Nat) (d : FormValues)
    (loading : Bool) (s : String) (hd : d.cvv = some s)
    (hne : s ≠ "") (hlen : s.length ≠ 3) :
    "Maximum 3 digits" ∈ (validateForm now d).cvv ∧
    anyInvalid now d = true ∧
    submitDisabled now d loading = true := by
  have hcvv : validate_cvv (some s) = ["Maximum 3 digits"] := by
    simp [validate_cvv, hne, hlen]
  refine ⟨?_, ?_, ?_⟩
  · simp [validateForm, hd, hcvv]
  · simp [anyInvalid, validateForm, hd, hcvv]
  · simp [submitDisabled, anyInvalid, validateForm, hd, hcvv]

/-- Witness for the amended C4 at `cvv = "12"`. -/
theorem cvv_wrong_length_errors_witness :
    "12" ≠ "" ∧ "12".length ≠ 3 ∧
    ("Maximum 3 digits" ∈ (validateForm (2026, 10) ⟨none, none, none, some "12"⟩).cvv ∧
     anyInvalid (2026, 10) ⟨none, none, none, some "12"⟩ = true ∧
     submitDisabled (2026, 10) ⟨none, none, none, some "12"⟩ false = true) :=
  ⟨by decide, by decide,
    cvv_wrong_length_errors (2026, 10) ⟨none, none, none, some "12"⟩ false "12"
      rfl (by decide) (by decide)⟩

/-- C5: for every non-empty `card_number` string that fails the Luhn checksum,
validation produces an error list for the `card_number` field containing
`Must be a valid card`. -/
theorem card_number_luhn_fail_errors (now : Nat × Nat) (d : FormValues)
    (n : String) (hd : d.card_number = some n) (hne : n ≠ "")
    (hluhn : validateCardNumber n = false) :
    "Must be a valid card" ∈ (validateForm now d).card_number := by
  simp [validateForm, hd, validate_card_number, hne, hluhn]

/-- Witness for C5 at the Luhn-invalid number `1234`. -/
theorem card_number_luhn_fail_errors_witness :
    "1234" ≠ "" ∧ validateCardNumber "1234" = false ∧
    "Must be a valid card"
      ∈ (validateForm (2026, 10) ⟨none, some "1234", none, none⟩).card_number :=
  ⟨by decide, by decide,
    card_number_luhn_fail_errors (2026, 10) ⟨none, some "1234", none, none⟩
      "1234" rfl (by decide) (by decide)⟩

/-- C6: for every non-empty `card_number` string that passes the Luhn checksum
but whose detected brand is neither Visa nor Mastercard, validation produces an
error list for the `card_number` field containing
`Must be Visa / Master card type`. -/
theorem card_number_wrong_brand_errors (now : Nat × Nat) (d : FormValues)
    (n : String) (hd : d.card_number = some n) (hne : n ≠ "")
    (hluhn : validateCardNumber n = true)
    (hv : parseCardType (some n) ≠ CardBrand.visa)
    (hm : parseCardType (some n) ≠ CardBrand.mastercard) :
    "Must be Visa / Master card type" ∈ (validateForm now d).card_number := by
  simp [validateForm, hd, validate_card_number, hne, hluhn, hv, hm]

/-- Witness for C6 at the Luhn-valid American Express number `378282246310005`. -/
theorem card_number_wrong_brand_errors_witness :
    "378282246310005" ≠ "" ∧ validateCardNumber "378282246310005" = true ∧
    parseCardType (some "378282246310005") ≠ CardBrand.visa ∧
    parseCardType (some "378282246310005") ≠ CardBrand.mastercard ∧
    "Must be Visa / Master card type"
      ∈ (validateForm (2026, 10)
          ⟨none, some "378282246310005", none, none⟩).card_number :=
  ⟨by decide, by decide, by decide, by decide,
    card_number_wrong_brand_errors (2026, 10)
      ⟨none, some "378282246310005", none, none⟩ "378282246310005" rfl
      (by decide) (by decide) (by decide) (by decide)⟩

/-- C10: the cvv field is validated as a string, not as a number: every
3-character cvv string that passes the CVC well-formedness check — leading
zeros included — yields an empty cvv error list; the numeric value of the
string is never consulted. -/
theorem cvv_validated_as_string (now : Nat × Nat) (d : FormValues)
    (s : String) (hd : d.cvv = some s) (hlen : s.length = 3)
    (hcvc : validateCardCVC s = true) :
    (validateForm now d).cvv = [] := by
  have hne : s ≠ "" := by
    intro h
    subst h
    simp at hlen
  simp [validateForm, hd, validate_cvv, hne, hlen, hcvc]

/-- Witness for C10 at the leading-zero cvv `"012"`. -/
theorem cvv_validated_as_string_witness :
    "012".length = 3 ∧ validateCardCVC "012" = true ∧
    (validateForm (2026, 10) ⟨none, none, none, some "012"⟩).cvv = [] :=
  ⟨by decide, by decide,
    cvv_validated_as_string (2026, 10) ⟨none, none, none, some "012"⟩ "012" rfl
      (by decide) (by decide)⟩

end Checkout
